import Mathlib

/-!
Verification of the chat-proxy backend: a shallow embedding of
`src/backend/main.py`, `src/backend/openai_service.py` and
`src/backend/arize_service.py`, followed by theorems settling the
specification claims.

Modelling conventions:
* The external OpenAI completion provider is a parameter
  `p : Provider`, a function from the model identifier and message
  list to either a structured response or an exception text.
* `str(uuid.uuid4())` is a parameter `u : String`: the value the
  random UUID source yields for the current call.
* The Arize Phoenix tracing backend is a `TraceBackend` value fixed
  at startup: the SDK may be missing (the dummy `trace` function),
  or present and possibly raising on the recording call.
* Python exceptions are `Except String` with the exception text
  (`str(e)`); `print` output is collected in a `List String` log.
-/

namespace ChatProxy

/-- Embeds `class Message(BaseModel)` of `main.py`: a role/content pair.
The same shape serves for the dictionaries
`(\x7b"role": msg.role, "content": msg.content\x7d)` built in `chat`. -/
structure Message where
  role : String
  content : String
deriving Repr, DecidableEq

/-- Embeds `class ChatRequest(BaseModel)` of `main.py`.
`model: Optional[str] = "gpt-3.5-turbo"` means the field may hold a
string or `None`; the default string applies only when the field is
absent from the body. -/
structure ChatRequest where
  messages : List Message
  model : Option String
deriving Repr, DecidableEq

/-- Embeds `class ChatResponse(BaseModel)` of `main.py`. -/
structure ChatResponse where
  message : Message
  trace_id : String
deriving Repr, DecidableEq

/-- The message part of one completion choice of the provider response
(`response.choices[i].message`). -/
structure ChoiceMessage where
  content : String
deriving Repr, DecidableEq

/-- One completion choice of the provider response. -/
structure Choice where
  message : ChoiceMessage
deriving Repr, DecidableEq

/-- The structured response of `openai.ChatCompletion.acreate`. -/
structure ProviderResponse where
  choices : List Choice
deriving Repr, DecidableEq

/-- Outcome of one provider call: a structured response, or an
exception whose text representation is recorded. -/
inductive ProviderResult where
  | ok (resp : ProviderResponse)
  | err (e : String)
deriving Repr, DecidableEq

/-- The external completion provider as an oracle: given the `model`
argument (possibly `None`) and the `messages` argument of
`openai.ChatCompletion.acreate`, it answers or raises. -/
def Provider : Type := Option String → List Message → ProviderResult

/-- State of the tracing backend, fixed at process start
(`arize_service.py` lines 6-13): either the Arize Phoenix SDK failed
to import (so `trace` is the printing dummy), or it is present and
the recording call may raise with the given exception text. -/
inductive TraceBackend where
  | sdkMissing
  | sdk (raises : Option String)
deriving Repr, DecidableEq

/-- `str(x)` for the `model` value, as used in the f-string
`"LLM Call - ..."`: `None` prints as `"None"`. -/
def pyStrOpt : Option String → String
  | none => "None"
  | some s => s

/-- Four lowercase hex digits, as Python json escapes produce. -/
def hex4 (n : Nat) : String :=
  let d := fun k => Nat.digitChar (n / k % 16)
  String.mk [d 4096, d 256, d 16, d 1]

/-- Escape of a single character in `json.dumps` with the default
`ensure_ascii=True`: quote and backslash are escaped, characters
outside the printable ASCII range 0x20-0x7e are escaped as
short sequences, `\uXXXX`, or a surrogate pair. -/
def escChar (c : Char) : String :=
  if c = '"' then "\\\""
  else if c = '\\' then "\\\\"
  else if c = '\n' then "\\n"
  else if c = '\r' then "\\r"
  else if c = '\t' then "\\t"
  else if c.toNat = 8 then "\\b"
  else if c.toNat = 12 then "\\f"
  else if c.toNat < 32 then "\\u" ++ hex4 c.toNat
  else if c.toNat < 127 then String.mk [c]
  else if c.toNat < 65536 then "\\u" ++ hex4 c.toNat
  else
    let m := c.toNat - 65536
    "\\u" ++ hex4 (55296 + m / 1024) ++ "\\u" ++ hex4 (56320 + m % 1024)

/-- `json.dumps` of a Python string. -/
def dumpStr (s : String) : String :=
  "\"" ++ String.join (s.data.map escChar) ++ "\""

/-- `json.dumps` rendering, at `indent=2` inside a list, of one
message dictionary `\x7b"role": r, "content": c\x7d` (keys in
insertion order, as built in `main.py` line 23). -/
def dumpMsg (m : Message) : String :=
  "\x7b\n    \"role\": " ++ dumpStr m.role ++
  ",\n    \"content\": " ++ dumpStr m.content ++ "\n  \x7d"

/-- `json.dumps(prompt, indent=2)` for the message-dictionary list
passed as `prompt` (`arize_service.py` line 33). -/
def pyJsonDumps (ms : List Message) : String :=
  match ms with
  | [] => "[]"
  | _ => "[\n  " ++ String.intercalate ",\n  " (ms.map dumpMsg) ++ "\n]"

/-- The span record delivered to the tracing backend by the `trace`
call in `trace_llm_call`: name, inputs (serialized prompt and model),
outputs (response text) and the span id. -/
structure TraceRecord where
  span_id : String
  name : String
  inputs_prompt : String
  inputs_model : Option String
  outputs_response : String
deriving Repr, DecidableEq

/-- The `trace(...)` invocation inside `trace_llm_call`: with the SDK
missing the dummy prints a notice and returns `None`; with the SDK
present the record reaches the backend, unless the client raises. -/
def traceCall (b : TraceBackend) (rec : TraceRecord) :
    Except String (Option TraceRecord × List String) :=
  match b with
  | .sdkMissing => .ok (none, ["Arize Phoenix tracing disabled."])
  | .sdk none => .ok (some rec, [])
  | .sdk (some e) => .error e

/-- Embeds `trace_llm_call` of `arize_service.py`: serializes the
prompt, builds the span record, performs the `trace` call, and
catches every exception, printing a diagnostic instead of raising.
Returns the record the backend received (if any) and the print log.
The total (non-`Except`) return type reflects that the function
never raises to its caller. -/
def trace_llm_call (b : TraceBackend) (trace_id : String)
    (model : Option String) (prompt : List Message) (response : String) :
    Option TraceRecord × List String :=
  let r : TraceRecord :=
    { span_id := trace_id
      name := "LLM Call - " ++ pyStrOpt model
      inputs_prompt := pyJsonDumps prompt
      inputs_model := model
      outputs_response := response }
  match traceCall b r with
  | .ok (tr, log) => (tr, log ++ ["Traced LLM call with ID: " ++ trace_id])
  | .error e => (none, ["Error tracing LLM call: " ++ e])

/-- Result of `get_chat_completion`: the returned pair or the raised
exception text, the trace record that reached the backend (if any),
and the print log. -/
structure GccResult where
  result : Except String (String × String)
  traced : Option TraceRecord
  log : List String
deriving Repr

/-- Embeds `get_chat_completion` of `openai_service.py`: binds the
fresh trace id, calls the provider, extracts
`response.choices[0].message.content` (an empty `choices` list makes
the subscript raise `IndexError`, whose text is
`"list index out of range"`), records the trace, and returns
`(content, trace_id)`; any exception in the `try` block is printed
as a diagnostic and re-raised. -/
def get_chat_completion (p : Provider) (u : String) (b : TraceBackend)
    (messages : List Message) (model : Option String) : GccResult :=
  let trace_id := u
  match p model messages with
  | .err e =>
      { result := .error e, traced := none
        log := ["Error calling OpenAI API: " ++ e] }
  | .ok resp =>
    match resp.choices with
    | [] =>
        { result := .error "list index out of range", traced := none
          log := ["Error calling OpenAI API: list index out of range"] }
    | choice :: _ =>
        let content := choice.message.content
        let t := trace_llm_call b trace_id model messages content
        { result := .ok (content, trace_id), traced := t.1, log := t.2 }

/-- HTTP-level outcome of an endpoint call: a 200 with a
`ChatResponse` body, or an error status with a detail text. -/
inductive HttpResult where
  | ok (resp : ChatResponse)
  | httpError (status : Nat) (detail : String)
deriving Repr, DecidableEq

/-- Full observable outcome of one request: the HTTP result, the
trace record the backend received (if any), and the print log. -/
structure ChatOutcome where
  http : HttpResult
  traced : Option TraceRecord
  log : List String
deriving Repr, DecidableEq

/-- Embeds the `chat` endpoint body of `main.py`: converts the
pydantic messages to dictionaries, calls `get_chat_completion`, and
wraps the reply in a `ChatResponse` with role `"assistant"`; any
exception becomes `HTTPException(status_code=500, detail=str(e))`. -/
def chat (p : Provider) (u : String) (b : TraceBackend)
    (request : ChatRequest) : ChatOutcome :=
  let messages := request.messages.map (fun msg => Message.mk msg.role msg.content)
  let g := get_chat_completion p u b messages request.model
  match g.result with
  | .ok (response, trace_id) =>
      { http := .ok { message := { role := "assistant", content := response }
                      trace_id := trace_id }
        traced := g.traced, log := g.log }
  | .error e =>
      { http := .httpError 500 e, traced := g.traced, log := g.log }

/-- Embeds `health_check` of `main.py`: the constant dictionary
`\x7b"status": "healthy"\x7d`, no inputs, no side effects. -/
def health_check : List (String × String) := [("status", "healthy")]

/-- A JSON value, the shape of an incoming request body after the
framework parses the raw bytes. -/
inductive Json where
  | null
  | bool (b : Bool)
  | num (n : Int)
  | str (s : String)
  | arr (xs : List Json)
  | obj (fields : List (String × Json))
deriving Repr

/-- Field access in a JSON object, as pydantic reads model fields
from the parsed body; extra fields are ignored. -/
def getField (fields : List (String × Json)) (k : String) : Option Json :=
  match fields with
  | [] => none
  | (k2, v) :: rest => if k2 = k then some v else getField rest k

/-- Pydantic validation of one element of `messages` against the
`Message` model of `main.py`: an object with string fields `role`
and `content`, both required, no constraint on the role value. -/
def validateMessage (j : Json) : Except String Message :=
  match j with
  | .obj fs =>
    match getField fs "role", getField fs "content" with
    | some (.str r), some (.str c) => .ok { role := r, content := c }
    | _, _ => .error "value is not a valid Message"
  | _ => .error "value is not a valid dict"

/-- Pydantic validation of the `messages` field: a list whose every
element validates as a `Message`; the empty list is accepted, since
`List[Message]` carries no minimum-length constraint. -/
def validateMessages (j : Json) : Except String (List Message) :=
  match j with
  | .arr xs => xs.mapM validateMessage
  | _ => .error "value is not a valid list"

/-- Pydantic validation of the `ChatRequest` model of `main.py`:
`messages` is required; `model: Optional[str] = "gpt-3.5-turbo"`
takes the default only when the field is absent, while an explicit
`null` validates to `None` and a string passes through. -/
def validateChatRequest (j : Json) : Except String ChatRequest :=
  match j with
  | .obj fs =>
    match getField fs "messages" with
    | none => .error "field required: messages"
    | some mj =>
      match validateMessages mj with
      | .error e => .error e
      | .ok ms =>
        match getField fs "model" with
        | none => .ok { messages := ms, model := some "gpt-3.5-turbo" }
        | some .null => .ok { messages := ms, model := none }
        | some (.str s) => .ok { messages := ms, model := some s }
        | some _ => .error "model: str type expected"
  | _ => .error "value is not a valid dict"

/-- The `POST /chat` route as served by the framework: the body is
validated against `ChatRequest` first, and a validation failure is
answered with the framework-level 422 before the endpoint body (and
hence the Completion Client) runs; otherwise the `chat` endpoint
body handles the validated request. -/
def handleChat (p : Provider) (u : String) (b : TraceBackend)
    (body : Json) : ChatOutcome :=
  match validateChatRequest body with
  | .error e => { http := .httpError 422 e, traced := none, log := [] }
  | .ok req => chat p u b req

/-- The continuation of `chat` once the provider call has produced
its result: everything the endpoint does with `pr`, the value (or
exception) of `openai.ChatCompletion.acreate(model=model,
messages=messages)`. Factoring `chat` through this function isolates
the exact arguments handed to the provider. -/
def chatGivenProviderResult (pr : ProviderResult) (u : String)
    (b : TraceBackend) (messages : List Message) (model : Option String) :
    ChatOutcome :=
  let g : GccResult :=
    match pr with
    | .err e =>
        { result := .error e, traced := none
          log := ["Error calling OpenAI API: " ++ e] }
    | .ok resp =>
      match resp.choices with
      | [] =>
          { result := .error "list index out of range", traced := none
            log := ["Error calling OpenAI API: list index out of range"] }
      | choice :: _ =>
          let content := choice.message.content
          let t := trace_llm_call b u model messages content
          { result := .ok (content, u), traced := t.1, log := t.2 }
  match g.result with
  | .ok (response, trace_id) =>
      { http := .ok { message := { role := "assistant", content := response }
                      trace_id := trace_id }
        traced := g.traced, log := g.log }
  | .error e =>
      { http := .httpError 500 e, traced := g.traced, log := g.log }

/-- The dictionary conversion in `chat` rebuilds each message from
its own fields, so it is the identity on the list. -/
theorem map_toDict_id (ms : List Message) :
    ms.map (fun msg => Message.mk msg.role msg.content) = ms := by
  induction ms with
  | nil => rfl
  | cons m rest ih => cases m; simp [ih]

/-- `chat` factors through `chatGivenProviderResult`: the provider is
consulted exactly once, at the model identifier of the request and
at exactly the message list of the request, and everything else is a
function of that single answer. -/
theorem chat_factors (p : Provider) (u : String) (b : TraceBackend)
    (req : ChatRequest) :
    chat p u b req =
      chatGivenProviderResult (p req.model req.messages) u b
        req.messages req.model := by
  unfold chat chatGivenProviderResult get_chat_completion
  rw [map_toDict_id]

/-- C1: for every well-formed ChatRequest on which the provider call
succeeds with at least one completion choice, the endpoint answers
HTTP 200 with a ChatResponse whose message role is exactly
"assistant" and whose message content is, unmodified, the text
content of the first completion choice, paired with the generated
trace id. -/
theorem chat_success_assistant_unmodified (p : Provider) (u : String)
    (b : TraceBackend) (req : ChatRequest) (resp : ProviderResponse)
    (c : Choice) (rest : List Choice)
    (hp : p req.model req.messages = .ok resp)
    (hc : resp.choices = c :: rest) :
    (chat p u b req).http =
      .ok { message := { role := "assistant", content := c.message.content }
            trace_id := u } := by
  rw [chat_factors, hp]
  simp only [chatGivenProviderResult, hc]

/-- Witness for C1 at the round-trip example of the specification:
conversation `[role user, content Hi]`, stubbed provider answering
"Hello!". -/
theorem chat_success_assistant_unmodified_witness :
    (chat (fun _ _ => .ok { choices := [{ message := { content := "Hello!" } }] })
        "trace-1" (.sdk none)
        { messages := [{ role := "user", content := "Hi" }]
          model := some "gpt-3.5-turbo" }).http =
      .ok { message := { role := "assistant", content := "Hello!" }
            trace_id := "trace-1" } :=
  chat_success_assistant_unmodified _ "trace-1" _ _
    { choices := [{ message := { content := "Hello!" } }] }
    { message := { content := "Hello!" } } [] rfl rfl

/-- C2: whenever the Completion Client fails — the provider call
raises with text `e`, or the provider response is malformed in that
it carries no completion choice (the `choices[0]` subscript raises
an IndexError) — the endpoint answers HTTP 500 whose detail is
exactly the text representation of the underlying exception, and
`chat` still returns a well-defined outcome (the process does not
crash). -/
theorem chat_client_failure_http500 :
    (∀ (p : Provider) (u : String) (b : TraceBackend) (req : ChatRequest)
       (e : String), p req.model req.messages = .err e →
       (chat p u b req).http = .httpError 500 e) ∧
    (∀ (p : Provider) (u : String) (b : TraceBackend) (req : ChatRequest)
       (resp : ProviderResponse), p req.model req.messages = .ok resp →
       resp.choices = [] →
       (chat p u b req).http = .httpError 500 "list index out of range") := by
  constructor
  · intro p u b req e hp
    rw [chat_factors, hp]
    rfl
  · intro p u b req resp hp hc
    rw [chat_factors, hp]
    simp only [chatGivenProviderResult, hc]

/-- Witness for C2: a provider raising with text "connection reset"
yields HTTP 500 with that detail, and an empty-choices response
yields HTTP 500 with the IndexError text. -/
theorem chat_client_failure_http500_witness :
    (chat (fun _ _ => .err "connection reset") "trace-2" .sdkMissing
        { messages := [{ role := "user", content := "Hi" }]
          model := some "gpt-3.5-turbo" }).http
      = .httpError 500 "connection reset" ∧
    (chat (fun _ _ => .ok { choices := [] }) "trace-3" .sdkMissing
        { messages := [{ role := "user", content := "Hi" }]
          model := some "gpt-3.5-turbo" }).http
      = .httpError 500 "list index out of range" :=
  ⟨chat_client_failure_http500.1 _ "trace-2" _ _ "connection reset" rfl,
   chat_client_failure_http500.2 _ "trace-3" _ _ { choices := [] } rfl rfl⟩

/-- C9: the health endpoint is the constant dictionary
`\x7b"status": "healthy"\x7d`; it reads no provider or tracing
state (it takes no such input at all) and performs no effect. -/
theorem health_check_always_healthy :
    health_check = [("status", "healthy")] := rfl

/-- C3: tracing never raises to its caller and never changes the
primary response. First, every recording failure is caught inside
`trace_llm_call` and turned into one diagnostic print (so is the
SDK-missing dummy, which prints a notice), a plain value rather
than an exception, as the total return type of `trace_llm_call`
already records. Consequently, whenever the provider call succeeds,
the `(reply, trace_id)` value returned by `get_chat_completion` and
the HTTP outcome are identical across every tracing-backend state,
and the endpoint answers 200 with the correct message. -/
theorem trace_failure_never_downgrades :
    (∀ (tid : String) (model : Option String) (prompt : List Message)
       (response e : String),
       trace_llm_call (.sdk (some e)) tid model prompt response =
         (none, ["Error tracing LLM call: " ++ e])) ∧
    (∀ (tid : String) (model : Option String) (prompt : List Message)
       (response : String),
       trace_llm_call .sdkMissing tid model prompt response =
         (none, ["Arize Phoenix tracing disabled.",
                 "Traced LLM call with ID: " ++ tid])) ∧
    (∀ (p : Provider) (u : String) (b1 b2 : TraceBackend) (req : ChatRequest)
       (resp : ProviderResponse) (c : Choice) (rest : List Choice),
       p req.model req.messages = .ok resp → resp.choices = c :: rest →
       (get_chat_completion p u b1 req.messages req.model).result =
         (get_chat_completion p u b2 req.messages req.model).result ∧
       (chat p u b1 req).http = (chat p u b2 req).http ∧
       (chat p u b1 req).http =
         .ok { message := { role := "assistant", content := c.message.content }
               trace_id := u }) := by
  refine ⟨fun tid model prompt response e => rfl,
          fun tid model prompt response => rfl,
          fun p u b1 b2 req resp c rest hp hc => ?_⟩
  refine ⟨?_, ?_, ?_⟩
  · unfold get_chat_completion
    rw [hp]
    simp only [hc]
  · rw [chat_factors, chat_factors, hp]
    simp only [chatGivenProviderResult, hc]
  · rw [chat_factors, hp]
    simp only [chatGivenProviderResult, hc]

/-- Witness for C3 at a raising backend against a healthy one: the
stubbed provider answers "Hello!", the first backend raises with
text "phoenix down", and the responses agree and are correct. -/
theorem trace_failure_never_downgrades_witness :
    (chat (fun _ _ => .ok { choices := [{ message := { content := "Hello!" } }] })
        "trace-4" (.sdk (some "phoenix down"))
        { messages := [{ role := "user", content := "Hi" }]
          model := some "gpt-3.5-turbo" }).http =
      (chat (fun _ _ => .ok { choices := [{ message := { content := "Hello!" } }] })
        "trace-4" (.sdk none)
        { messages := [{ role := "user", content := "Hi" }]
          model := some "gpt-3.5-turbo" }).http ∧
    (chat (fun _ _ => .ok { choices := [{ message := { content := "Hello!" } }] })
        "trace-4" (.sdk (some "phoenix down"))
        { messages := [{ role := "user", content := "Hi" }]
          model := some "gpt-3.5-turbo" }).http =
      .ok { message := { role := "assistant", content := "Hello!" }
            trace_id := "trace-4" } :=
  ⟨(trace_failure_never_downgrades.2.2 _ "trace-4" (.sdk (some "phoenix down"))
      (.sdk none) _ { choices := [{ message := { content := "Hello!" } }] }
      { message := { content := "Hello!" } } [] rfl rfl).2.1,
   (trace_failure_never_downgrades.2.2 _ "trace-4" (.sdk (some "phoenix down"))
      (.sdk none) _ { choices := [{ message := { content := "Hello!" } }] }
      { message := { content := "Hello!" } } [] rfl rfl).2.2⟩

/-- C5: the trace id returned on success is exactly the value drawn
from the UUID source for this call, independently of the provider
answer and with no caching: two successful calls with identical
messages and model return distinct trace ids whenever the UUID
source yielded distinct values, and the trace id is non-empty
whenever the drawn UUID string is non-empty (the text of
`uuid.uuid4()` is a 36-character string, never empty). -/
theorem trace_id_fresh_unique :
    (∀ (p : Provider) (u : String) (b : TraceBackend) (msgs : List Message)
       (model : Option String) (reply tid : String),
       (get_chat_completion p u b msgs model).result = .ok (reply, tid) →
       tid = u) ∧
    (∀ (p : Provider) (u1 u2 : String) (b : TraceBackend) (msgs : List Message)
       (model : Option String) (r1 t1 r2 t2 : String), u1 ≠ u2 →
       (get_chat_completion p u1 b msgs model).result = .ok (r1, t1) →
       (get_chat_completion p u2 b msgs model).result = .ok (r2, t2) →
       t1 ≠ t2) ∧
    (∀ (p : Provider) (u : String) (b : TraceBackend) (msgs : List Message)
       (model : Option String) (reply tid : String), u ≠ "" →
       (get_chat_completion p u b msgs model).result = .ok (reply, tid) →
       tid ≠ "") := by
  have key : ∀ (p : Provider) (u : String) (b : TraceBackend)
      (msgs : List Message) (model : Option String) (reply tid : String),
      (get_chat_completion p u b msgs model).result = .ok (reply, tid) →
      tid = u := by
    intro p u b msgs model reply tid h
    cases hp : p model msgs with
    | err e =>
      simp only [get_chat_completion, hp] at h
      exact absurd h (by simp)
    | ok resp =>
      cases hc : resp.choices with
      | nil =>
        simp only [get_chat_completion, hp, hc] at h
        exact absurd h (by simp)
      | cons c rest =>
        simp only [get_chat_completion, hp, hc, Except.ok.injEq,
          Prod.mk.injEq] at h
        exact h.2.symm
  refine ⟨key, ?_, ?_⟩
  · intro p u1 u2 b msgs model r1 t1 r2 t2 hne h1 h2
    rw [key p u1 b msgs model r1 t1 h1, key p u2 b msgs model r2 t2 h2]
    exact hne
  · intro p u b msgs model reply tid hne h
    rw [key p u b msgs model reply tid h]
    exact hne

/-- Witness for C5: two calls with identical input but distinct UUID
draws "id-a" and "id-b" return the trace ids "id-a" and "id-b",
which are distinct and non-empty. -/
theorem trace_id_fresh_unique_witness :
    "id-a" = "id-a" ∧ ("id-a" : String) ≠ "id-b" ∧ ("id-a" : String) ≠ "" :=
  ⟨trace_id_fresh_unique.1
      (fun _ _ => .ok { choices := [{ message := { content := "Hello!" } }] })
      "id-a" .sdkMissing [{ role := "user", content := "Hi" }]
      (some "gpt-3.5-turbo") "Hello!" "id-a" rfl ▸ rfl,
   trace_id_fresh_unique.2.1
      (fun _ _ => .ok { choices := [{ message := { content := "Hello!" } }] })
      "id-a" "id-b" .sdkMissing [{ role := "user", content := "Hi" }]
      (some "gpt-3.5-turbo") "Hello!" "id-a" "Hello!" "id-b"
      (by decide) rfl rfl,
   trace_id_fresh_unique.2.2
      (fun _ _ => .ok { choices := [{ message := { content := "Hello!" } }] })
      "id-a" .sdkMissing [{ role := "user", content := "Hi" }]
      (some "gpt-3.5-turbo") "Hello!" "id-a" (by decide) rfl⟩

/-- C8: `get_chat_completion` fails exactly as the specification
describes: when the provider call raises with text `e` it prints
the diagnostic naming that text and re-raises `e` to the Gateway;
when the provider response carries no completion choice, the
`choices[0]` subscript raises the IndexError, which is likewise
printed and propagated. In both cases nothing is traced. -/
theorem provider_failure_diagnostic_propagates :
    (∀ (p : Provider) (u : String) (b : TraceBackend) (msgs : List Message)
       (model : Option String) (e : String), p model msgs = .err e →
       get_chat_completion p u b msgs model =
         { result := .error e, traced := none
           log := ["Error calling OpenAI API: " ++ e] }) ∧
    (∀ (p : Provider) (u : String) (b : TraceBackend) (msgs : List Message)
       (model : Option String) (resp : ProviderResponse),
       p model msgs = .ok resp → resp.choices = [] →
       get_chat_completion p u b msgs model =
         { result := .error "list index out of range", traced := none
           log := ["Error calling OpenAI API: list index out of range"] }) := by
  constructor
  · intro p u b msgs model e hp
    unfold get_chat_completion
    rw [hp]
  · intro p u b msgs model resp hp hc
    unfold get_chat_completion
    rw [hp]
    simp only [hc]

/-- Witness for C8: a provider raising "rate limit" propagates that
text after the diagnostic print; an empty-choices response
propagates the IndexError text after its diagnostic print. -/
theorem provider_failure_diagnostic_propagates_witness :
    get_chat_completion (fun _ _ => .err "rate limit") "trace-5" .sdkMissing
        [{ role := "user", content := "Hi" }] (some "gpt-3.5-turbo") =
      { result := .error "rate limit", traced := none
        log := ["Error calling OpenAI API: rate limit"] } ∧
    get_chat_completion (fun _ _ => .ok { choices := [] }) "trace-6" .sdkMissing
        [{ role := "user", content := "Hi" }] (some "gpt-3.5-turbo") =
      { result := .error "list index out of range", traced := none
        log := ["Error calling OpenAI API: list index out of range"] } :=
  ⟨provider_failure_diagnostic_propagates.1 _ "trace-5" _ _ _ "rate limit" rfl,
   provider_failure_diagnostic_propagates.2 _ "trace-6" _ _ _
     { choices := [] } rfl rfl⟩

/-- Counterexample to C4 as stated: `List[Message]` carries no
non-empty constraint, so the body with an empty `messages` list
passes validation and the Completion Client and provider are
invoked — the outcome is the Completion-Client 500, not a
framework-level 4xx rejection. -/
theorem empty_conversation_reaches_provider :
    (handleChat (fun _ _ => .err "provider invoked") "trace-7" .sdkMissing
        (Json.obj [("messages", Json.arr [])])).http
      = .httpError 500 "provider invoked" := rfl

/-- C4 amended: only structurally malformed bodies (missing or
mistyped fields) are rejected with the framework-level 422 before
the Completion Client runs — for such bodies the outcome is the
same whatever the provider does, so the provider is never reached;
but an empty conversation and arbitrary role strings pass
validation (the models constrain neither) and such requests do
proceed to the Completion Client. -/
theorem validation_rejects_malformed_only :
    (∀ (p : Provider) (u : String) (b : TraceBackend) (body : Json)
       (e : String), validateChatRequest body = .error e →
       handleChat p u b body =
         { http := .httpError 422 e, traced := none, log := [] }) ∧
    (∀ r c : String, validateChatRequest
        (Json.obj [("messages",
          Json.arr [Json.obj [("role", Json.str r), ("content", Json.str c)]])])
      = .ok { messages := [{ role := r, content := c }]
              model := some "gpt-3.5-turbo" }) ∧
    validateChatRequest (Json.obj [("messages", Json.arr [])])
      = .ok { messages := [], model := some "gpt-3.5-turbo" } := by
  refine ⟨?_, ?_, rfl⟩
  · intro p u b body e h
    unfold handleChat
    rw [h]
  · intro r c
    rfl

/-- Witness for C4 amended: a body that is not an object is
rejected with 422 regardless of the provider, and a message with
the unrecognized role "wizard" validates. -/
theorem validation_rejects_malformed_only_witness :
    handleChat (fun _ _ => .err "never seen") "trace-8" .sdkMissing Json.null =
      { http := .httpError 422 "value is not a valid dict"
        traced := none, log := [] } ∧
    validateChatRequest
        (Json.obj [("messages",
          Json.arr [Json.obj [("role", Json.str "wizard"),
                              ("content", Json.str "Hi")]])])
      = .ok { messages := [{ role := "wizard", content := "Hi" }]
              model := some "gpt-3.5-turbo" } :=
  ⟨validation_rejects_malformed_only.1 _ "trace-8" _ Json.null
      "value is not a valid dict" rfl,
   validation_rejects_malformed_only.2.1 "wizard" "Hi"⟩

/-- C6: when the `model` field is absent from the body, validation
fills in the default "gpt-3.5-turbo", and the whole outcome factors
through the provider applied at exactly
`model = some "gpt-3.5-turbo"` and the validated messages — the
provider receives the default identifier, not an empty string. -/
theorem absent_model_uses_default :
    ∀ (p : Provider) (u : String) (b : TraceBackend)
      (fs : List (String × Json)) (mj : Json) (ms : List Message),
      getField fs "messages" = some mj →
      validateMessages mj = .ok ms →
      getField fs "model" = none →
      validateChatRequest (Json.obj fs) =
        .ok { messages := ms, model := some "gpt-3.5-turbo" } ∧
      handleChat p u b (Json.obj fs) =
        chatGivenProviderResult (p (some "gpt-3.5-turbo") ms) u b ms
          (some "gpt-3.5-turbo") := by
  intro p u b fs mj ms hmsg hval hmodel
  have hreq : validateChatRequest (Json.obj fs) =
      .ok { messages := ms, model := some "gpt-3.5-turbo" } := by
    simp only [validateChatRequest, hmsg, hval, hmodel]
  refine ⟨hreq, ?_⟩
  unfold handleChat
  rw [hreq]
  exact chat_factors p u b { messages := ms, model := some "gpt-3.5-turbo" }

/-- Witness for C6: for the body with only a `messages` field, the
outcome is determined by the provider result at the default model
identifier; evaluated with a stub provider that reports the model
argument it received, the 500 detail shows the default, not an
empty string. -/
theorem absent_model_uses_default_witness :
    handleChat (fun m _ => .err ("model=" ++ pyStrOpt m)) "trace-9" .sdkMissing
        (Json.obj [("messages",
          Json.arr [Json.obj [("role", Json.str "user"),
                              ("content", Json.str "Hi")]])]) =
      chatGivenProviderResult
        ((fun (m : Option String) (_ : List Message) =>
            ProviderResult.err ("model=" ++ pyStrOpt m))
          (some "gpt-3.5-turbo") [{ role := "user", content := "Hi" }])
        "trace-9" .sdkMissing [{ role := "user", content := "Hi" }]
        (some "gpt-3.5-turbo") :=
  (absent_model_uses_default _ "trace-9" _
    [("messages",
      Json.arr [Json.obj [("role", Json.str "user"),
                          ("content", Json.str "Hi")]])]
    (Json.arr [Json.obj [("role", Json.str "user"),
                         ("content", Json.str "Hi")]])
    [{ role := "user", content := "Hi" }] rfl rfl rfl).2

/-- C10: an explicit `"model": null` in the body validates to
`model = None` — the default is not applied — and the outcome
factors through the provider applied at exactly `model = none`:
the `None` is passed through to the provider call. -/
theorem null_model_passes_none :
    ∀ (p : Provider) (u : String) (b : TraceBackend)
      (fs : List (String × Json)) (mj : Json) (ms : List Message),
      getField fs "messages" = some mj →
      validateMessages mj = .ok ms →
      getField fs "model" = some Json.null →
      validateChatRequest (Json.obj fs) = .ok { messages := ms, model := none } ∧
      handleChat p u b (Json.obj fs) =
        chatGivenProviderResult (p none ms) u b ms none := by
  intro p u b fs mj ms hmsg hval hmodel
  have hreq : validateChatRequest (Json.obj fs) =
      .ok { messages := ms, model := none } := by
    simp only [validateChatRequest, hmsg, hval, hmodel]
  refine ⟨hreq, ?_⟩
  unfold handleChat
  rw [hreq]
  exact chat_factors p u b { messages := ms, model := none }

/-- Witness for C10: for a body carrying `"model": null`,
validation yields `model = none` and the outcome is the provider
result at `model = none`. -/
theorem null_model_passes_none_witness :
    validateChatRequest
        (Json.obj [("messages",
          Json.arr [Json.obj [("role", Json.str "user"),
                              ("content", Json.str "Hi")]]),
          ("model", Json.null)]) =
      .ok { messages := [{ role := "user", content := "Hi" }], model := none } ∧
    handleChat (fun m _ => .err ("model=" ++ pyStrOpt m)) "trace-10" .sdkMissing
        (Json.obj [("messages",
          Json.arr [Json.obj [("role", Json.str "user"),
                              ("content", Json.str "Hi")]]),
          ("model", Json.null)]) =
      chatGivenProviderResult
        ((fun (m : Option String) (_ : List Message) =>
            ProviderResult.err ("model=" ++ pyStrOpt m))
          none [{ role := "user", content := "Hi" }])
        "trace-10" .sdkMissing [{ role := "user", content := "Hi" }] none :=
  null_model_passes_none _ "trace-10" _
    [("messages",
      Json.arr [Json.obj [("role", Json.str "user"),
                          ("content", Json.str "Hi")]]),
      ("model", Json.null)]
    (Json.arr [Json.obj [("role", Json.str "user"),
                         ("content", Json.str "Hi")]])
    [{ role := "user", content := "Hi" }] rfl rfl rfl

/-- C7: the conversation is preserved end-to-end. The whole outcome
of `chat` factors through the provider applied at exactly the
request message list (same roles, contents and order: the
dictionary conversion is the identity), and every span record that
reaches the tracing backend carries as its prompt the JSON
serialization of exactly that list, together with the model and the
reply; with a healthy backend such a record is in fact produced. -/
theorem conversation_preserved_end_to_end :
    (∀ (p : Provider) (u : String) (b : TraceBackend) (req : ChatRequest),
       chat p u b req =
         chatGivenProviderResult (p req.model req.messages) u b
           req.messages req.model) ∧
    (∀ (p : Provider) (u : String) (b : TraceBackend) (req : ChatRequest)
       (resp : ProviderResponse) (c : Choice) (rest : List Choice),
       p req.model req.messages = .ok resp → resp.choices = c :: rest →
       (chat p u b req).traced = none ∨
       (chat p u b req).traced = some
         { span_id := u, name := "LLM Call - " ++ pyStrOpt req.model
           inputs_prompt := pyJsonDumps req.messages
           inputs_model := req.model
           outputs_response := c.message.content }) ∧
    (∀ (p : Provider) (u : String) (req : ChatRequest)
       (resp : ProviderResponse) (c : Choice) (rest : List Choice),
       p req.model req.messages = .ok resp → resp.choices = c :: rest →
       (chat p u (.sdk none) req).traced = some
         { span_id := u, name := "LLM Call - " ++ pyStrOpt req.model
           inputs_prompt := pyJsonDumps req.messages
           inputs_model := req.model
           outputs_response := c.message.content }) := by
  have htr : ∀ (p : Provider) (u : String) (b : TraceBackend)
      (req : ChatRequest) (resp : ProviderResponse) (c : Choice)
      (rest : List Choice),
      p req.model req.messages = .ok resp → resp.choices = c :: rest →
      (chat p u b req).traced =
        (trace_llm_call b u req.model req.messages c.message.content).1 := by
    intro p u b req resp c rest hp hc
    rw [chat_factors, hp]
    simp only [chatGivenProviderResult, hc]
  refine ⟨chat_factors, ?_, ?_⟩
  · intro p u b req resp c rest hp hc
    rw [htr p u b req resp c rest hp hc]
    cases b with
    | sdkMissing => exact Or.inl rfl
    | sdk raises =>
      cases raises with
      | none => exact Or.inr rfl
      | some e => exact Or.inl rfl
  · intro p u req resp c rest hp hc
    rw [htr p u (.sdk none) req resp c rest hp hc]
    rfl

/-- Witness for C7: with the healthy backend, the conversation
`[role user, content Hi]` and the stubbed reply "Hello!", the span
record carries exactly that conversation serialized (order, role
and content intact), the model, and the reply. -/
theorem conversation_preserved_end_to_end_witness :
    (chat (fun _ _ => .ok { choices := [{ message := { content := "Hello!" } }] })
        "trace-11" (.sdk none)
        { messages := [{ role := "user", content := "Hi" }]
          model := some "gpt-3.5-turbo" }).traced =
      some { span_id := "trace-11", name := "LLM Call - gpt-3.5-turbo"
             inputs_prompt :=
               "[\n  \x7b\n    \"role\": \"user\",\n    \"content\": \"Hi\"\n  \x7d\n]"
             inputs_model := some "gpt-3.5-turbo"
             outputs_response := "Hello!" } :=
  (conversation_preserved_end_to_end.2.2 _ "trace-11"
    { messages := [{ role := "user", content := "Hi" }]
      model := some "gpt-3.5-turbo" }
    { choices := [{ message := { content := "Hello!" } }] }
    { message := { content := "Hello!" } } [] rfl rfl).trans (by decide)

end ChatProxy
